import Mathlib

/-!
Shallow embedding of `class_proxy.py` (the `class_proxy` transparent-proxy
library) and proofs about its specification.

Modelling conventions:
* Python classes are identified by natural-number ids (`ClassId`); an `Env`
  records, for each class, its `__dict__` (an association list of member
  names to values), its `__mro__` (most-derived class first, ending in
  `object`), and its `__name__`.
* Python `dict` objects are modelled as association lists with
  Python-assignment semantics (`dictInsert` updates in place or appends,
  `dictGet` finds the unique binding).
* Python values are modelled by `PyVal`; object identity for instances is
  the `oid` field; the module-private `_deleted` tombstone class is the
  `deletedClass` constructor; plain functions are descriptors (they define
  `__get__`), modelled by `hasGet` and `dunderGet`.
* The module-level mutable state (`PROXY_CACHE` plus the fresh identity of
  each type object created by `type(...)`) is threaded explicitly through
  `FactoryState`; the per-synthesized-type `_instance_wrapper` side tables
  are the `InstanceWrapper` state.
-/

namespace ClassProxy

/-- A Python class, identified by id.  `object` is class id 0. -/
abbrev ClassId := Nat

/-- The universal base type `object`. -/
def objectCls : ClassId := 0

/-- Builtin class id for `int`. -/
def intCls : ClassId := 1

/-- Builtin class id for `str`. -/
def strCls : ClassId := 2

/-- Builtin class id for `NoneType`. -/
def noneCls : ClassId := 3

/-- Builtin class id for the function type. -/
def functionCls : ClassId := 4

/-- Builtin class id for the bound-method type. -/
def methodCls : ClassId := 5

/-- Builtin class id for `type` (the metaclass; the type of the `_deleted`
tombstone class). -/
def typeCls : ClassId := 6

/-- Python runtime values, as far as the library manipulates them.
`obj oid ty` is an ordinary instance with identity `oid` and class `ty`;
`deletedClass` is the module-private `_deleted` class used as a tombstone;
`func` is a plain function (a descriptor: it defines `__get__`), and
`boundMethod` is the result of binding a function to an instance. -/
inductive PyVal where
  | vnone : PyVal
  | vint : Int → PyVal
  | vstr : String → PyVal
  | obj : Nat → ClassId → PyVal
  | deletedClass : PyVal
  | func : ClassId → String → PyVal
  | boundMethod : ClassId → String → PyVal → PyVal
deriving DecidableEq, Repr

/-- `type(v)`: the class of a value. -/
def pyType : PyVal → ClassId
  | .vnone => noneCls
  | .vint _ => intCls
  | .vstr _ => strCls
  | .obj _ ty => ty
  | .deletedClass => typeCls
  | .func _ _ => functionCls
  | .boundMethod _ _ _ => methodCls

/-- `hasattr(v, "__get__")`: plain functions are descriptors. -/
def hasGet : PyVal → Bool
  | .func _ _ => true
  | _ => false

/-- `v.__get__(inst, owner)` for the values that define it: a function bound
to `None` returns itself, a function bound to an instance returns a bound
method.  Non-descriptors are returned unchanged (the library only calls this
under a `hasGet` guard). -/
def dunderGet (v : PyVal) (inst : Option PyVal) : PyVal :=
  match v, inst with
  | .func o n, some i => .boundMethod o n i
  | v, _ => v

/-- The class environment: each class id's `__dict__` (names bound to
values, in declaration order), its `__mro__` (most-derived first), and its
`__name__`. -/
structure Env where
  dict : ClassId → List (String × PyVal)
  mro : ClassId → List ClassId
  cname : ClassId → String

/-- `cls.__dict__.keys()`. -/
def declsOf (env : Env) (c : ClassId) : List String :=
  (env.dict c).map Prod.fst

/-- `isinstance(v, c)`: the class of `v` has `c` in its mro. -/
def isinstance (env : Env) (v : PyVal) (c : ClassId) : Bool :=
  (env.mro (pyType v)).contains c

/-- Python `dict` lookup on an association list. -/
def dictGet {κ α : Type} [DecidableEq κ] : List (κ × α) → κ → Option α
  | [], _ => none
  | p :: rest, k => if p.1 = k then some p.2 else dictGet rest k

/-- Python `dict` assignment: update the binding in place when the key is
present, append it otherwise. -/
def dictInsert {κ α : Type} [DecidableEq κ] : List (κ × α) → κ → α → List (κ × α)
  | [], k, v => [(k, v)]
  | p :: rest, k, v => if p.1 = k then (k, v) :: rest else p :: dictInsert rest k v

/-- `IGNORE_WRAPPED_METHODS` from the source: special names never forwarded. -/
def IGNORE_WRAPPED_METHODS : List String :=
  ["__new__", "__init__", "__getattr__", "__setattr__", "__delattr__",
   "__getattribute__"]

/-- `_mro_common(left, right)`: reverse both mros, zip them, keep the
pointwise-equal positions, and reverse the result.  The arguments are the
two classes' `__mro__` lists (most-derived first). -/
def mro_common (left right : List ClassId) : List ClassId :=
  (((left.reverse.zip right.reverse).filter
      (fun q => q.1 == q.2)).map Prod.fst).reverse

/-- Modelled from the spec: the "common ancestry" described as the longest
common shared prefix of the two (reversed, root-first) ancestor chains.
Used only to compare the spec's words with `mro_common`. -/
def commonAncestrySpec : List ClassId → List ClassId → List ClassId
  | a :: as_, b :: bs => if a = b then a :: commonAncestrySpec as_ bs else []
  | _, _ => []

/-- `_resolve_proxy_members(proxy_class, common)`: every member name declared
by a base of the proxy class outside `common` is proxy-owned. -/
def resolve_proxy_members (env : Env) (proxy : ClassId) (common : List ClassId) :
    List String :=
  ((env.mro proxy).reverse).foldl
    (fun acc b => if b ∈ common then acc else acc ++ declsOf env b) []

/-- `_resolve_wrapped_members(wrapped_class, base_methods)`: walk the wrapped
class's mro from root to most-derived; each name not in `base_methods` is
(re)bound to the current base, so the most-derived declaration wins. -/
def resolve_wrapped_members (env : Env) (wrapped : ClassId) (bm : List String) :
    List (String × ClassId) :=
  ((env.mro wrapped).reverse).foldl
    (fun acc b =>
      (declsOf env b).foldl
        (fun acc2 n => if n ∈ bm then acc2 else dictInsert acc2 n b) acc)
    []

/-- The `base_methods` set of `_create_raw_wrapper`: proxy-owned names
together with the always-ignored special names. -/
def base_methods (env : Env) (wrapped proxy : ClassId) : List String :=
  resolve_proxy_members env proxy (mro_common (env.mro wrapped) (env.mro proxy))
    ++ IGNORE_WRAPPED_METHODS

/-- A member of the synthesized type's namespace (`members` in
`_create_raw_wrapper`): a `_proxied_value` forwarding descriptor bound to a
wrapped-class base, a value copied from the proxy class's own `__dict__`,
the generated constructor, or the generated read-only `__instance__`
property. -/
inductive Member where
  | forwarded : ClassId → String → Member
  | proxyDecl : ClassId → String → Member
  | ctor : Member
  | instanceProp : Member
deriving DecidableEq, Repr

/-- `resolution` in `_create_raw_wrapper`. -/
def members_resolution (env : Env) (wrapped proxy : ClassId) :
    List (String × ClassId) :=
  resolve_wrapped_members env wrapped (base_methods env wrapped proxy)

/-- The first `members.update`: a `_proxied_value(base, name, instances)`
forwarding descriptor for every entry of `resolution`. -/
def members0 (env : Env) (wrapped proxy : ClassId) : List (String × Member) :=
  (members_resolution env wrapped proxy).foldl
    (fun acc nb => dictInsert acc nb.1 (Member.forwarded nb.2 nb.1)) []

/-- The second `members.update`: the proxy class's own `__dict__` entries
overwrite forwarding descriptors of the same name. -/
def members1 (env : Env) (wrapped proxy : ClassId) : List (String × Member) :=
  (declsOf env proxy).foldl
    (fun acc n => dictInsert acc n (Member.proxyDecl proxy n))
    (members0 env wrapped proxy)

/-- The full `members` dict of `_create_raw_wrapper`: after the two updates,
`@_overwrite_method` installs the generated `__init__` and then the
generated `__instance__` property. -/
def createMembers (env : Env) (wrapped proxy : ClassId) : List (String × Member) :=
  dictInsert (dictInsert (members1 env wrapped proxy) "__init__" Member.ctor)
    "__instance__" Member.instanceProp

/-- The `_instance_wrapper` side tables: `_wrapped_objects` maps a proxy
instance's `id()` to the wrapped instance, `_states` maps it to the
per-instance override dict. -/
structure InstanceWrapper where
  wrapped_objects : List (Nat × PyVal)
  states : List (Nat × List (String × PyVal))
deriving DecidableEq, Repr

/-- A fresh `_instance_wrapper()`. -/
def emptyIW : InstanceWrapper := ⟨[], []⟩

/-- `id(x)` for the values a descriptor can receive as its `instance`
argument: `None` (class-level access) has a fixed id, an ordinary instance's
id is offset from its identity.  The library only ever passes proxy
instances or `None` here. -/
def pyId : Option PyVal → Nat
  | none => 0
  | some (.obj oid _) => oid + 1
  | some _ => 0

/-- `set_instance`. -/
def set_instance (iw : InstanceWrapper) (pid : Nat) (inst : PyVal) :
    InstanceWrapper :=
  { iw with wrapped_objects := dictInsert iw.wrapped_objects pid inst }

/-- `get_instance`; `none` models the `KeyError` of a missing entry. -/
def get_instance (iw : InstanceWrapper) (pid : Nat) : Option PyVal :=
  dictGet iw.wrapped_objects pid

/-- `get_state`: return the override dict for the given id, creating an
empty one (a state mutation) when absent. -/
def get_state (iw : InstanceWrapper) (pid : Nat) :
    List (String × PyVal) × InstanceWrapper :=
  match dictGet iw.states pid with
  | some s => (s, iw)
  | none => ([], { iw with states := dictInsert iw.states pid [] })

/-- Errors the library can raise, carried structurally: `typeMismatch`
holds the three fields interpolated into the `TypeError` message of the
generated `__init__` (the synthesized type's name, the offending value and
its type's name); `attributeError` holds the owner type's name and the
attribute name; `keyError` models a missing side-table entry;
`assertionFailure` models the `assert 0, "unreachable code"` branch;
`cantSetAttribute` models assigning through a getter-only property. -/
inductive PyError where
  | typeMismatch : String → PyVal → String → PyError
  | attributeError : String → String → PyError
  | keyError : Nat → PyError
  | assertionFailure : PyError
  | cantSetAttribute : PyError
deriving DecidableEq, Repr

/-- The `owner` argument of `_proxied_value.__get__`: either an ordinary
class or the synthesized type (known by name). -/
inductive PyOwner where
  | cls : ClassId → PyOwner
  | synth : String → PyOwner
deriving DecidableEq, Repr

/-- `owner.__name__`. -/
def ownerName (env : Env) : PyOwner → String
  | .cls c => env.cname c
  | .synth n => n

/-- `_proxied_value.__get__(self, instance, owner)` for the descriptor with
originating base `base` and member name `nm`.  Returns the produced value
(or the raised error) together with the possibly-updated side tables. -/
def proxied_get (env : Env) (base : ClassId) (nm : String)
    (iw : InstanceWrapper) (inst : Option PyVal) (owner : PyOwner) :
    Except PyError PyVal × InstanceWrapper :=
  let r := get_state iw (pyId inst)
  let finish : PyVal → Option PyVal → PyOwner → Except PyError PyVal :=
    fun result inst2 owner2 =>
      if result = PyVal.deletedClass then
        .error (.attributeError (ownerName env owner2) nm)
      else if hasGet result then .ok (dunderGet result inst2)
      else .ok result
  let res : Except PyError PyVal :=
    match dictGet r.1 nm with
    | some result => finish result inst owner
    | none =>
      match dictGet (env.dict base) nm with
      | some result =>
        match inst with
        | none => finish result none (PyOwner.cls base)
        | some i =>
          match get_instance r.2 (pyId (some i)) with
          | some w => finish result (some w) (PyOwner.cls base)
          | none => .error (.keyError (pyId (some i)))
      | none => .error PyError.assertionFailure
  (res, r.2)

/-- `_proxied_value.__set__`: store the value in the instance's override
dict. -/
def proxied_set (iw : InstanceWrapper) (pid : Nat) (nm : String) (v : PyVal) :
    InstanceWrapper :=
  let r := get_state iw pid
  { r.2 with states := dictInsert r.2.states pid (dictInsert r.1 nm v) }

/-- `_proxied_value.__delete__`: store the `_deleted` tombstone in the
instance's override dict. -/
def proxied_delete (iw : InstanceWrapper) (pid : Nat) (nm : String) :
    InstanceWrapper :=
  let r := get_state iw pid
  { r.2 with states := dictInsert r.2.states pid (dictInsert r.1 nm PyVal.deletedClass) }

/-- The generated `__init__` of `_create_raw_wrapper`: check
`isinstance(inner, wrapped_class)` (raising the `TypeError` with the current
state untouched on failure), record the association, then run the proxy
class's own initializer (whose effect on the side tables is the parameter
`proxy_init`). -/
def synth_init (env : Env) (wrapped_class : ClassId) (synthName : String)
    (proxy_init : InstanceWrapper → PyVal → InstanceWrapper)
    (iw : InstanceWrapper) (self inner : PyVal) :
    Option PyError × InstanceWrapper :=
  if isinstance env inner wrapped_class then
    (none, proxy_init (set_instance iw (pyId (some self)) inner) self)
  else
    (some (PyError.typeMismatch synthName inner (env.cname (pyType inner))), iw)

/-- The getter of the generated `__instance__` property
(`_instance_property`): `instances.get_instance(self)`. -/
def instance_property_get (iw : InstanceWrapper) (self : PyVal) : Option PyVal :=
  get_instance iw (pyId (some self))

/-- The module-level `instance(obj)` helper: it returns
`obj.__instance__`, i.e. it reads through the generated property. -/
def instance_fn (iw : InstanceWrapper) (obj : PyVal) : Option PyVal :=
  instance_property_get iw obj

/-- The property object installed under `__instance__`: `@property` applied
to a getter only, so its `fset` slot is empty. -/
structure InstanceProperty where
  fset : Option (InstanceWrapper → Nat → PyVal → InstanceWrapper)

/-- The concrete `__instance__` property built by `_create_raw_wrapper`. -/
def the_instance_property : InstanceProperty := { fset := none }

/-- Modelled CPython property semantics: `property.__set__` raises
`AttributeError` when `fset` is `None`, leaving all state untouched. -/
def property_set (pr : InstanceProperty) (iw : InstanceWrapper) (pid : Nat)
    (v : PyVal) : Option PyError × InstanceWrapper :=
  match pr.fset with
  | none => (some PyError.cantSetAttribute, iw)
  | some f => (none, f iw pid v)

/-- A synthesized type: a fresh identity (`tid` models the identity of the
object returned by `type(name, (proxy_class,), members)`), its `__name__`,
its base class and its member dict. -/
structure SynthType where
  tid : Nat
  tyname : String
  base : ClassId
  members : List (String × Member)
deriving DecidableEq, Repr

/-- The module-level mutable state: `PROXY_CACHE` plus a counter supplying
the identity of each freshly created type object. -/
structure FactoryState where
  cache : List ((ClassId × ClassId × Option String) × SynthType)
  nextId : Nat
deriving DecidableEq, Repr

/-- `_create_raw_wrapper`: build the member dict, pick the name (the
explicit one, else `"Proxy[Wrapped]"`), and create a fresh type object. -/
def create_raw_wrapper (env : Env) (wrapped proxy : ClassId)
    (nm : Option String) (st : FactoryState) : SynthType × FactoryState :=
  let finalName :=
    match nm with
    | some n => n
    | none => env.cname proxy ++ "[" ++ env.cname wrapped ++ "]"
  ({ tid := st.nextId, tyname := finalName, base := proxy,
     members := createMembers env wrapped proxy },
   { st with nextId := st.nextId + 1 })

/-- `_wrap_with_raw`: return the cached synthesized type for the key
`(wrapped, proxy, name)`, creating and caching it on a miss. -/
def wrap_with_raw (env : Env) (wrapped proxy : ClassId) (nm : Option String)
    (st : FactoryState) : SynthType × FactoryState :=
  match dictGet st.cache (wrapped, proxy, nm) with
  | some t => (t, st)
  | none =>
    let r := create_raw_wrapper env wrapped proxy nm st
    (r.1, { r.2 with cache := dictInsert r.2.cache (wrapped, proxy, nm) r.1 })

/-- `wrap_with(class_0, class_1=None, name=None)`: with `class_1` omitted
the single class argument is the proxy class and the wrapped class defaults
to `object`. -/
def wrap_with (env : Env) (class_0 : ClassId) (class_1 : Option ClassId)
    (nm : Option String) (st : FactoryState) : SynthType × FactoryState :=
  match class_1 with
  | none => wrap_with_raw env objectCls class_0 nm st
  | some c1 => wrap_with_raw env class_0 c1 nm st

/-- `reset_proxy_cache`: clear `PROXY_CACHE` (live type objects keep their
identities, so the freshness counter is untouched). -/
def reset_proxy_cache (st : FactoryState) : FactoryState :=
  { st with cache := [] }

/-- Class id of the test suite's `Base` class. -/
def baseCls : ClassId := 10

/-- Class id of the test suite's `BaseProxy` class. -/
def baseProxyCls : ClassId := 11

/-- A concrete environment mirroring `test_class_proxy.py`: `Base`
(fields `a = 1`, `b = 2`, methods `get_self`, `get_base`, custom
`__str__`/`__repr__`) and `BaseProxy` (fields `b = 3`, `c = 4`, an
`__init__`, methods `get_self`, `get_proxy`, custom `__str__`), both
inheriting directly from `object`.  `object`'s own `__dict__` is abridged
to a representative subset of CPython's. -/
def envTest : Env where
  dict c :=
    if c = objectCls then
      [("__new__", .func objectCls "__new__"),
       ("__init__", .func objectCls "__init__"),
       ("__str__", .func objectCls "__str__"),
       ("__repr__", .func objectCls "__repr__"),
       ("__setattr__", .func objectCls "__setattr__"),
       ("__delattr__", .func objectCls "__delattr__"),
       ("__getattribute__", .func objectCls "__getattribute__"),
       ("__hash__", .func objectCls "__hash__"),
       ("__eq__", .func objectCls "__eq__")]
    else if c = baseCls then
      [("a", .vint 1), ("b", .vint 2),
       ("get_self", .func baseCls "get_self"),
       ("get_base", .func baseCls "get_base"),
       ("__str__", .func baseCls "__str__"),
       ("__repr__", .func baseCls "__repr__")]
    else if c = baseProxyCls then
      [("b", .vint 3), ("c", .vint 4),
       ("__init__", .func baseProxyCls "__init__"),
       ("get_self", .func baseProxyCls "get_self"),
       ("get_proxy", .func baseProxyCls "get_proxy"),
       ("__str__", .func baseProxyCls "__str__")]
    else []
  mro c := if c = objectCls then [objectCls] else [c, objectCls]
  cname c :=
    if c = objectCls then "object"
    else if c = intCls then "int"
    else if c = strCls then "str"
    else if c = baseCls then "Base"
    else if c = baseProxyCls then "BaseProxy"
    else "anon"

/-- Basic dictionary lemma: reading back the key just written. -/
theorem dictGet_insert_self {κ α : Type} [DecidableEq κ]
    (d : List (κ × α)) (k : κ) (v : α) :
    dictGet (dictInsert d k v) k = some v := by
  induction d with
  | nil => simp [dictInsert, dictGet]
  | cons p rest ih =>
    by_cases h : p.1 = k
    · simp [dictInsert, h, dictGet]
    · simp [dictInsert, h, dictGet, ih]

/-- Basic dictionary lemma: writing one key leaves the others unchanged. -/
theorem dictGet_insert_ne {κ α : Type} [DecidableEq κ]
    (d : List (κ × α)) (k k' : κ) (v : α) (h : k' ≠ k) :
    dictGet (dictInsert d k v) k' = dictGet d k' := by
  induction d with
  | nil => simp [dictInsert, dictGet, Ne.symm h]
  | cons p rest ih =>
    by_cases hp : p.1 = k
    · simp [dictInsert, hp, dictGet, Ne.symm h]
    · by_cases hp' : p.1 = k'
      · simp [dictInsert, hp, dictGet, hp', h]
      · simp [dictInsert, hp, dictGet, hp', ih]

/-- A key is absent from an association list iff no entry carries it. -/
theorem dictGet_eq_none_iff {κ α : Type} [DecidableEq κ]
    (d : List (κ × α)) (k : κ) :
    dictGet d k = none ↔ ∀ p ∈ d, p.1 ≠ k := by
  induction d with
  | nil => simp [dictGet]
  | cons p rest ih =>
    by_cases h : p.1 = k
    · simp [dictGet, h]
    · simp [dictGet, h, ih]

/-- A successful lookup exhibits a matching entry. -/
theorem dictGet_mem {κ α : Type} [DecidableEq κ]
    (d : List (κ × α)) (k : κ) (v : α) (h : dictGet d k = some v) :
    (k, v) ∈ d := by
  induction d with
  | nil => simp [dictGet] at h
  | cons p rest ih =>
    obtain ⟨k1, v1⟩ := p
    by_cases hp : k1 = k
    · simp only [dictGet, if_pos hp] at h
      cases h
      subst hp
      exact List.mem_cons_self _ _
    · simp only [dictGet, if_neg hp] at h
      exact List.mem_cons_of_mem _ (ih h)

/-- Folding the declarations of one wrapped-class base into the resolution
dict: a name outside `base_methods` ends up bound to that base exactly when
the base declares it. -/
theorem resolve_inner_get (bm : List String) (b : ClassId) (name : String)
    (h : name ∉ bm) :
    ∀ (ns : List String) (acc : List (String × ClassId)),
    dictGet (ns.foldl (fun acc2 n => if n ∈ bm then acc2 else dictInsert acc2 n b) acc)
        name =
      if name ∈ ns then some b else dictGet acc name := by
  intro ns
  induction ns with
  | nil => intro acc; simp
  | cons n rest ih =>
    intro acc
    simp only [List.foldl_cons]
    rw [ih]
    by_cases hmem : name ∈ rest
    · simp [hmem]
    · by_cases hn : n = name
      · subst hn
        simp [hmem, h, dictGet_insert_self]
      · by_cases hbm : n ∈ bm
        · simp [hmem, hbm, hn, Ne.symm hn]
        · simp [hmem, hbm, hn, Ne.symm hn,
            dictGet_insert_ne _ _ _ _ (Ne.symm hn)]

/-- Folding the declarations of one base never touches a name that is in
`base_methods`. -/
theorem resolve_inner_skip (bm : List String) (b : ClassId) (name : String)
    (h : name ∈ bm) :
    ∀ (ns : List String) (acc : List (String × ClassId)),
    dictGet (ns.foldl (fun acc2 n => if n ∈ bm then acc2 else dictInsert acc2 n b) acc)
        name = dictGet acc name := by
  intro ns
  induction ns with
  | nil => intro acc; simp
  | cons n rest ih =>
    intro acc
    simp only [List.foldl_cons]
    rw [ih]
    by_cases hbm : n ∈ bm
    · simp [hbm]
    · have hn : name ≠ n := fun he => hbm (he ▸ h)
      simp [hbm, dictGet_insert_ne _ _ _ _ hn]

/-- The root-to-derived walk of `_resolve_wrapped_members`, characterized:
an eligible name resolves to the last declaring base of the walk (the first
declaring base of the reversed walk), falling back to the accumulator. -/
theorem resolve_outer_get (env : Env) (bm : List String) (name : String)
    (h : name ∉ bm) :
    ∀ (l : List ClassId) (acc : List (String × ClassId)),
    dictGet
        (l.foldl
          (fun acc b =>
            (declsOf env b).foldl
              (fun acc2 n => if n ∈ bm then acc2 else dictInsert acc2 n b) acc)
          acc)
        name =
      ((l.reverse.find? (fun b => decide (name ∈ declsOf env b))) <|>
        dictGet acc name) := by
  intro l
  induction l with
  | nil => intro acc; simp
  | cons b bs ih =>
    intro acc
    simp only [List.foldl_cons, List.reverse_cons]
    rw [ih, List.find?_append]
    cases hf : bs.reverse.find? (fun b => decide (name ∈ declsOf env b)) with
    | some b' => simp [Option.orElse]
    | none =>
      rw [resolve_inner_get bm b name h]
      by_cases hd : name ∈ declsOf env b
      · simp [List.find?, hd, Option.orElse]
      · simp [List.find?, hd, Option.orElse]

/-- The walk of `_resolve_wrapped_members` never binds a name that is in
`base_methods`. -/
theorem resolve_outer_skip (env : Env) (bm : List String) (name : String)
    (h : name ∈ bm) :
    ∀ (l : List ClassId) (acc : List (String × ClassId)),
    dictGet
        (l.foldl
          (fun acc b =>
            (declsOf env b).foldl
              (fun acc2 n => if n ∈ bm then acc2 else dictInsert acc2 n b) acc)
          acc)
        name = dictGet acc name := by
  intro l
  induction l with
  | nil => intro acc; simp
  | cons b bs ih =>
    intro acc
    simp only [List.foldl_cons]
    rw [ih, resolve_inner_skip bm b name h]

/-- An eligible member name resolves to the most-derived declaring ancestor
of the wrapped class's mro. -/
theorem resolve_wrapped_members_get (env : Env) (wrapped : ClassId)
    (bm : List String) (name : String) (h : name ∉ bm) :
    dictGet (resolve_wrapped_members env wrapped bm) name =
      (env.mro wrapped).find? (fun b => decide (name ∈ declsOf env b)) := by
  unfold resolve_wrapped_members
  rw [resolve_outer_get env bm name h]
  simp only [List.reverse_reverse, dictGet]
  cases hf : (env.mro wrapped).find? (fun b => decide (name ∈ declsOf env b)) with
  | some b => simp [Option.orElse]
  | none => simp [Option.orElse]

/-- A name in `base_methods` is never resolved to any wrapped-class base. -/
theorem resolve_wrapped_members_skip (env : Env) (wrapped : ClassId)
    (bm : List String) (name : String) (h : name ∈ bm) :
    dictGet (resolve_wrapped_members env wrapped bm) name = none := by
  unfold resolve_wrapped_members
  rw [resolve_outer_skip env bm name h]
  rfl

/-- Folding entries whose keys all differ from `k` leaves `k`'s binding
unchanged. -/
theorem dictGet_fold_entries_of_not_mem {κ α β : Type} [DecidableEq κ]
    (f : κ × α → β) (k : κ) :
    ∀ (d : List (κ × α)) (acc : List (κ × β)), (∀ p ∈ d, p.1 ≠ k) →
    dictGet (d.foldl (fun acc p => dictInsert acc p.1 (f p)) acc) k =
      dictGet acc k := by
  intro d
  induction d with
  | nil => intro acc _; simp
  | cons p rest ih =>
    intro acc hk
    simp only [List.foldl_cons]
    rw [ih _ (fun q hq => hk q (List.mem_cons_of_mem _ hq)),
      dictGet_insert_ne _ _ _ _ (Ne.symm (hk p (List.mem_cons_self _ _)))]

/-- Folding a name-indexed update list: a name not in the list keeps its
old binding. -/
theorem dictGet_fold_names_of_not_mem {α : Type} (g : String → α) (k : String) :
    ∀ (ns : List String) (acc : List (String × α)), k ∉ ns →
    dictGet (ns.foldl (fun acc n => dictInsert acc n (g n)) acc) k =
      dictGet acc k := by
  intro ns
  induction ns with
  | nil => intro acc _; simp
  | cons n rest ih =>
    intro acc hk
    simp only [List.foldl_cons]
    rw [ih _ (fun hm => hk (List.mem_cons_of_mem _ hm)),
      dictGet_insert_ne _ _ _ _
        (fun he => hk (by rw [he]; exact List.mem_cons_self _ _))]

/-- Folding a name-indexed update list: a name in the list ends bound to its
update. -/
theorem dictGet_fold_names_of_mem {α : Type} (g : String → α) (k : String) :
    ∀ (ns : List String) (acc : List (String × α)), k ∈ ns →
    dictGet (ns.foldl (fun acc n => dictInsert acc n (g n)) acc) k =
      some (g k) := by
  intro ns
  induction ns with
  | nil => intro acc hk; simp at hk
  | cons n rest ih =>
    intro acc hk
    simp only [List.foldl_cons]
    by_cases hm : k ∈ rest
    · exact ih _ hm
    · have hn : k = n := by
        rcases List.mem_cons.mp hk with he | hm2
        · exact he
        · exact absurd hm2 hm
      subst hn
      rw [dictGet_fold_names_of_not_mem g k rest _ hm, dictGet_insert_self]

/-- The spec-side common ancestry of an empty left chain is empty. -/
theorem commonAncestrySpec_nil_left (ys : List ClassId) :
    commonAncestrySpec [] ys = [] := by
  cases ys <;> rfl

/-- The spec-side common ancestry of an empty right chain is empty. -/
theorem commonAncestrySpec_nil_right (xs : List ClassId) :
    commonAncestrySpec xs [] = [] := by
  cases xs <;> rfl

/-- The spec's longest-common-shared-prefix is always an initial segment of
the pointwise-equal positions that `_mro_common` keeps. -/
theorem commonAncestrySpec_le_zip : ∀ (xs ys : List ClassId),
    commonAncestrySpec xs ys <+:
      ((xs.zip ys).filter (fun q => q.1 == q.2)).map Prod.fst := by
  intro xs
  induction xs with
  | nil =>
    intro ys
    rw [commonAncestrySpec_nil_left]
    exact ⟨_, rfl⟩
  | cons a as_ ih =>
    intro ys
    cases ys with
    | nil =>
      rw [commonAncestrySpec_nil_right]
      exact ⟨_, rfl⟩
    | cons b bs =>
      by_cases h : a = b
      · obtain ⟨t, ht⟩ := ih bs
        refine ⟨t, ?_⟩
        simpa [commonAncestrySpec, h] using ht
      · rw [show commonAncestrySpec (a :: as_) (b :: bs) = [] from by
          simp [commonAncestrySpec, h]]
        exact ⟨_, rfl⟩

/-- C1 (counterexample): with `object = 0`, `A = 1`, `B = 2`, `X = 3`,
`C = 4`, `L = 5`, `R = 6` and the Python classes `class A`, `class X(A)`,
`class B(A)`, `class C`, `class L(B, X)`, `class R(B, C)`, the linearized
chains are `L.__mro__ = [L, B, X, A, object]` and
`R.__mro__ = [R, B, A, C, object]`.  `_mro_common` keeps `B` (the chains
re-align at position 3 after diverging at position 1), so its result
`[B, object]` is not a contiguous prefix of the reversed mros, and it
differs from the longest common shared prefix, which is `[object]`. -/
theorem spec_c1_counterexample :
    mro_common [5, 2, 3, 1, 0] [6, 2, 1, 4, 0] = [2, 0] ∧
    ¬ ((mro_common [5, 2, 3, 1, 0] [6, 2, 1, 4, 0]).reverse <+:
        ([5, 2, 3, 1, 0] : List ClassId).reverse) ∧
    (commonAncestrySpec ([5, 2, 3, 1, 0] : List ClassId).reverse
        ([6, 2, 1, 4, 0] : List ClassId).reverse) = [0] := by
  decide

/-- C1 (amended): the common ancestry computed by `_mro_common` is the list
of pointwise-equal positions of the two reversed mros; read from the root it
always extends the longest common shared prefix of the two chains (and
coincides with it unless the chains re-align at equal positions after
diverging), but it need not itself be a contiguous prefix of the reversed
mros. -/
theorem spec_c1_amended (left right : List ClassId) :
    commonAncestrySpec left.reverse right.reverse <+:
      (mro_common left right).reverse := by
  unfold mro_common
  rw [List.reverse_reverse]
  exact commonAncestrySpec_le_zip _ _

/-- C4 (counterexample): with the test suite's classes, `BaseProxy` declares
`__init__` in its own `__dict__`, yet the synthesized type carries the
generated constructor for that name — not the proxy's own definition —
because `_create_raw_wrapper` installs the generated `__init__` after
copying `proxy_class.__dict__`. -/
theorem spec_c4_counterexample :
    "__init__" ∈ declsOf envTest baseProxyCls ∧
    dictGet (createMembers envTest baseCls baseProxyCls) "__init__" =
      some Member.ctor ∧
    dictGet (createMembers envTest baseCls baseProxyCls) "__init__" ≠
      some (Member.proxyDecl baseProxyCls "__init__") := by
  refine ⟨by decide, by decide, by decide⟩

/-- C4 (amended): every member name literally defined in the proxy type's
own declaration, other than `__init__` and `__instance__`, ends up in the
synthesized type bound to the proxy type's own definition, never to a
forwarding accessor; for `__init__` and `__instance__` the generated
constructor (which still invokes the proxy's initializer) and the generated
underlying-instance property win instead. -/
theorem spec_c4 (env : Env) (wrapped proxy : ClassId) (name : String)
    (hmem : name ∈ declsOf env proxy) (h1 : name ≠ "__init__")
    (h2 : name ≠ "__instance__") :
    dictGet (createMembers env wrapped proxy) name =
      some (Member.proxyDecl proxy name) := by
  unfold createMembers
  rw [dictGet_insert_ne _ _ _ _ h2, dictGet_insert_ne _ _ _ _ h1]
  unfold members1
  rw [dictGet_fold_names_of_mem (fun n => Member.proxyDecl proxy n) name _ _ hmem]

/-- C4 (witness): with the test classes, the proxy-declared field `b` wins
over the wrapped class's `b` in the synthesized member dict. -/
theorem spec_c4_witness :
    dictGet (createMembers envTest baseCls baseProxyCls) "b" =
      some (Member.proxyDecl baseProxyCls "b") :=
  spec_c4 envTest baseCls baseProxyCls "b" (by decide) (by decide) (by decide)

/-- C5: no member of `IGNORE_WRAPPED_METHODS` — `__new__`, `__init__`,
`__getattr__`, `__setattr__`, `__delattr__`, `__getattribute__` — is ever
bound to a forwarding accessor in the synthesized type, whatever the two
classes declare. -/
theorem spec_c5 (env : Env) (wrapped proxy : ClassId) (name : String)
    (h : name ∈ IGNORE_WRAPPED_METHODS) (b : ClassId) (nm2 : String) :
    dictGet (createMembers env wrapped proxy) name ≠
      some (Member.forwarded b nm2) := by
  intro hc
  by_cases h1 : name = "__instance__"
  · subst h1
    unfold createMembers at hc
    rw [dictGet_insert_self] at hc
    exact Member.noConfusion (Option.some.inj hc)
  · unfold createMembers at hc
    rw [dictGet_insert_ne _ _ _ _ h1] at hc
    by_cases h2 : name = "__init__"
    · subst h2
      rw [dictGet_insert_self] at hc
      exact Member.noConfusion (Option.some.inj hc)
    · rw [dictGet_insert_ne _ _ _ _ h2] at hc
      unfold members1 at hc
      by_cases h3 : name ∈ declsOf env proxy
      · rw [dictGet_fold_names_of_mem (fun n => Member.proxyDecl proxy n)
          name _ _ h3] at hc
        exact Member.noConfusion (Option.some.inj hc)
      · rw [dictGet_fold_names_of_not_mem (fun n => Member.proxyDecl proxy n)
          name _ _ h3] at hc
        have hbm : name ∈ base_methods env wrapped proxy := by
          unfold base_methods
          exact List.mem_append.mpr (Or.inr h)
        have hres : dictGet (members_resolution env wrapped proxy) name = none := by
          unfold members_resolution
          exact resolve_wrapped_members_skip env wrapped _ name hbm
        have hkeys := (dictGet_eq_none_iff _ _).mp hres
        unfold members0 at hc
        rw [dictGet_fold_entries_of_not_mem
          (fun nb => Member.forwarded nb.2 nb.1) name _ _ hkeys] at hc
        exact Option.noConfusion hc

/-- C5 (witness): `__new__` is not forwarded for the test classes. -/
theorem spec_c5_witness :
    dictGet (createMembers envTest baseCls baseProxyCls) "__new__" ≠
      some (Member.forwarded objectCls "__new__") :=
  spec_c5 envTest baseCls baseProxyCls "__new__" (by decide) objectCls "__new__"

/-- C6: for every member name eligible for forwarding (outside
`base_methods`, i.e. neither proxy-owned nor an ignored special name), the
resolution walk of `_resolve_wrapped_members` binds the name to the
most-derived ancestor of the wrapped class's mro that declares it — the
root-to-derived walk lets a later (more derived) declaration replace an
earlier one. -/
theorem spec_c6 (env : Env) (wrapped proxy : ClassId) (name : String)
    (h : name ∉ base_methods env wrapped proxy) :
    dictGet (members_resolution env wrapped proxy) name =
      (env.mro wrapped).find? (fun b => decide (name ∈ declsOf env b)) :=
  resolve_wrapped_members_get env wrapped _ name h

/-- C6 (witness): with the test classes, the eligible name `a` resolves to
`Base`, the most-derived declaring ancestor. -/
theorem spec_c6_witness :
    dictGet (members_resolution envTest baseCls baseProxyCls) "a" =
      (envTest.mro baseCls).find? (fun b => decide ("a" ∈ declsOf envTest b)) :=
  spec_c6 envTest baseCls baseProxyCls "a" (by decide)

/-- A cache hit returns the cached type and leaves the state unchanged. -/
theorem wrap_with_raw_hit (env : Env) (w p : ClassId) (nm : Option String)
    (st : FactoryState) (t : SynthType)
    (hf : dictGet st.cache (w, p, nm) = some t) :
    wrap_with_raw env w p nm st = (t, st) := by
  unfold wrap_with_raw
  rw [hf]

/-- On a cache miss the returned type is the freshly created one. -/
theorem wrap_with_raw_fst_tid_miss (env : Env) (w p : ClassId)
    (nm : Option String) (st : FactoryState)
    (hf : dictGet st.cache (w, p, nm) = none) :
    (wrap_with_raw env w p nm st).1.tid = st.nextId := by
  unfold wrap_with_raw create_raw_wrapper
  rw [hf]

/-- On a cache miss the freshness counter advances. -/
theorem wrap_with_raw_snd_nextId_miss (env : Env) (w p : ClassId)
    (nm : Option String) (st : FactoryState)
    (hf : dictGet st.cache (w, p, nm) = none) :
    (wrap_with_raw env w p nm st).2.nextId = st.nextId + 1 := by
  unfold wrap_with_raw create_raw_wrapper
  rw [hf]

/-- After any `_wrap_with_raw` call, the cache maps the key to the returned
type. -/
theorem wrap_with_raw_cache_self (env : Env) (w p : ClassId)
    (nm : Option String) (st : FactoryState) :
    dictGet (wrap_with_raw env w p nm st).2.cache (w, p, nm) =
      some (wrap_with_raw env w p nm st).1 := by
  unfold wrap_with_raw create_raw_wrapper
  cases hf : dictGet st.cache (w, p, nm) with
  | some t => simp [hf]
  | none => simp [hf, dictGet_insert_self]

/-- A repeated `_wrap_with_raw` call with the same key is a cache hit on the
just-returned type. -/
theorem wrap_with_raw_idem (env : Env) (w p : ClassId) (nm : Option String)
    (st : FactoryState) :
    wrap_with_raw env w p nm ((wrap_with_raw env w p nm st).2) =
      ((wrap_with_raw env w p nm st).1, (wrap_with_raw env w p nm st).2) :=
  wrap_with_raw_hit env w p nm _ _ (wrap_with_raw_cache_self env w p nm st)

/-- In a well-formed state (every cached type id below the freshness
counter), the type returned by `_wrap_with_raw` has an id below the
resulting counter. -/
theorem wrap_with_raw_fst_tid_lt (env : Env) (w p : ClassId)
    (nm : Option String) (st : FactoryState)
    (hwf : ∀ e ∈ st.cache, e.2.tid < st.nextId) :
    (wrap_with_raw env w p nm st).1.tid < (wrap_with_raw env w p nm st).2.nextId := by
  cases hf : dictGet st.cache (w, p, nm) with
  | some t =>
    rw [wrap_with_raw_hit env w p nm st t hf]
    exact hwf _ (dictGet_mem _ _ _ hf)
  | none =>
    rw [wrap_with_raw_fst_tid_miss env w p nm st hf,
      wrap_with_raw_snd_nextId_miss env w p nm st hf]
    omega

/-- C2: starting from any well-formed factory state, two `wrap_with` calls
with the same (wrapped, proxy, name) triple return the identical
synthesized type; after `reset_proxy_cache`, the next call with the same
triple returns a type that is not identical to the one returned before the
reset. -/
theorem spec_c2 (env : Env) (w p : ClassId) (nm : Option String)
    (st : FactoryState) (hwf : ∀ e ∈ st.cache, e.2.tid < st.nextId) :
    ((wrap_with env w (some p) nm ((wrap_with env w (some p) nm st).2)).1 =
      (wrap_with env w (some p) nm st).1) ∧
    ((wrap_with env w (some p) nm
        (reset_proxy_cache
          (wrap_with env w (some p) nm
            ((wrap_with env w (some p) nm st).2)).2)).1 ≠
      (wrap_with env w (some p) nm st).1) := by
  have hw : ∀ s : FactoryState,
      wrap_with env w (some p) nm s = wrap_with_raw env w p nm s :=
    fun s => rfl
  simp only [hw]
  have hidem := wrap_with_raw_idem env w p nm st
  constructor
  · rw [hidem]
  · rw [hidem]
    show (wrap_with_raw env w p nm
        (reset_proxy_cache (wrap_with_raw env w p nm st).2)).1 ≠
      (wrap_with_raw env w p nm st).1
    intro heq
    have h3 : (wrap_with_raw env w p nm
        (reset_proxy_cache (wrap_with_raw env w p nm st).2)).1.tid =
        (wrap_with_raw env w p nm st).2.nextId :=
      wrap_with_raw_fst_tid_miss env w p nm _ rfl
    have h4 : (wrap_with_raw env w p nm st).1.tid <
        (wrap_with_raw env w p nm st).2.nextId :=
      wrap_with_raw_fst_tid_lt env w p nm st hwf
    rw [heq] at h3
    omega

/-- C2 (witness): concrete run from the empty state with the test classes. -/
theorem spec_c2_witness :
    ((wrap_with envTest baseCls (some baseProxyCls) none
        ((wrap_with envTest baseCls (some baseProxyCls) none ⟨[], 0⟩).2)).1 =
      (wrap_with envTest baseCls (some baseProxyCls) none ⟨[], 0⟩).1) ∧
    ((wrap_with envTest baseCls (some baseProxyCls) none
        (reset_proxy_cache
          (wrap_with envTest baseCls (some baseProxyCls) none
            ((wrap_with envTest baseCls (some baseProxyCls) none
              ⟨[], 0⟩).2)).2)).1 ≠
      (wrap_with envTest baseCls (some baseProxyCls) none ⟨[], 0⟩).1) :=
  spec_c2 envTest baseCls baseProxyCls none ⟨[], 0⟩ (by simp)

/-- C10: `wrap_with` called with a single class argument treats it as the
proxy class and defaults the wrapped class to `object`: the call computes
exactly what `wrap_with(object, thatClass)` computes from the same state,
and a subsequent explicit `wrap_with(object, thatClass)` call returns the
identical cached type. -/
theorem spec_c10 (env : Env) (c : ClassId) (nm : Option String)
    (st : FactoryState) :
    (wrap_with env c none nm st = wrap_with env objectCls (some c) nm st) ∧
    ((wrap_with env objectCls (some c) nm
        ((wrap_with env c none nm st).2)).1 =
      (wrap_with env c none nm st).1) := by
  constructor
  · rfl
  · exact congrArg Prod.fst (wrap_with_raw_idem env objectCls c nm st)

/-- C3: the synthesized constructor called with a wrapped value that is not
an instance of the declared wrapped class raises the type-mismatch error —
carrying the synthesized type's name, the offending value and its actual
type — with the side tables exactly as before the call (so the association
is not recorded and the proxy-side initializer, whatever it does, never
runs); called with a matching value it raises no error. -/
theorem spec_c3 (env : Env) (wrapped : ClassId) (synthName : String)
    (proxy_init : InstanceWrapper → PyVal → InstanceWrapper)
    (iw : InstanceWrapper) (self inner : PyVal) :
    (isinstance env inner wrapped = false →
      synth_init env wrapped synthName proxy_init iw self inner =
        (some (PyError.typeMismatch synthName inner (env.cname (pyType inner))),
          iw)) ∧
    (isinstance env inner wrapped = true →
      (synth_init env wrapped synthName proxy_init iw self inner).1 = none) := by
  constructor
  · intro h
    unfold synth_init
    rw [h]
    simp
  · intro h
    unfold synth_init
    rw [h]
    simp

/-- C3 (witness): the test scenario `proxy_class(0, 1)` — wrapping the
`int` value `0` with a proxy of `Base` — fails with the type-mismatch error
and leaves the empty side tables empty, while wrapping an actual `Base`
instance raises nothing. -/
theorem spec_c3_witness :
    (synth_init envTest baseCls "BaseProxy[Base]" (fun jw _ => jw) emptyIW
        (PyVal.obj 7 100) (PyVal.vint 0) =
      (some (PyError.typeMismatch "BaseProxy[Base]" (PyVal.vint 0)
        (envTest.cname (pyType (PyVal.vint 0)))), emptyIW)) ∧
    ((synth_init envTest baseCls "BaseProxy[Base]" (fun jw _ => jw) emptyIW
        (PyVal.obj 7 100) (PyVal.obj 50 baseCls)).1 = none) :=
  ⟨(spec_c3 envTest baseCls "BaseProxy[Base]" (fun jw _ => jw) emptyIW
      (PyVal.obj 7 100) (PyVal.vint 0)).1 (by decide),
   (spec_c3 envTest baseCls "BaseProxy[Base]" (fun jw _ => jw) emptyIW
      (PyVal.obj 7 100) (PyVal.obj 50 baseCls)).2 (by decide)⟩

/-- `get_state` never touches the wrapped-objects table. -/
theorem get_state_snd_wrapped (iw : InstanceWrapper) (pid : Nat) :
    (get_state iw pid).2.wrapped_objects = iw.wrapped_objects := by
  unfold get_state
  cases hf : dictGet iw.states pid <;> simp

/-- After `__set__`, the writing instance's override dict holds the new
binding. -/
theorem proxied_set_states_self (iw : InstanceWrapper) (pid : Nat)
    (nm : String) (v : PyVal) :
    dictGet (proxied_set iw pid nm v).states pid =
      some (dictInsert (get_state iw pid).1 nm v) := by
  unfold proxied_set
  exact dictGet_insert_self _ _ _

/-- After `__set__`, every other id's override dict is untouched. -/
theorem proxied_set_states_other (iw : InstanceWrapper) (pid : Nat)
    (nm : String) (v : PyVal) (qid : Nat) (h : qid ≠ pid) :
    dictGet (proxied_set iw pid nm v).states qid = dictGet iw.states qid := by
  unfold proxied_set
  rw [dictGet_insert_ne _ _ _ _ h]
  unfold get_state
  cases hf : dictGet iw.states pid with
  | some s => simp
  | none => simp [dictGet_insert_ne _ _ _ _ h]

/-- `__set__` never touches the wrapped-objects table. -/
theorem proxied_set_wrapped (iw : InstanceWrapper) (pid : Nat) (nm : String)
    (v : PyVal) :
    (proxied_set iw pid nm v).wrapped_objects = iw.wrapped_objects := by
  unfold proxied_set
  exact get_state_snd_wrapped iw pid

/-- `__delete__` is storing the tombstone through `__set__`'s code path. -/
theorem proxied_delete_eq_set (iw : InstanceWrapper) (pid : Nat) (nm : String) :
    proxied_delete iw pid nm = proxied_set iw pid nm PyVal.deletedClass :=
  rfl

/-- The produced value of `__get__` depends on the side tables only through
the reader's override-dict entry and the wrapped-objects table. -/
theorem proxied_get_fst_congr (env : Env) (base : ClassId) (nm : String)
    (iwa iwb : InstanceWrapper) (inst : Option PyVal) (owner : PyOwner)
    (hst : dictGet iwa.states (pyId inst) = dictGet iwb.states (pyId inst))
    (hwo : iwa.wrapped_objects = iwb.wrapped_objects) :
    (proxied_get env base nm iwa inst owner).1 =
      (proxied_get env base nm iwb inst owner).1 := by
  cases hf : dictGet iwb.states (pyId inst) with
  | some s =>
    have hfa : dictGet iwa.states (pyId inst) = some s := by rw [hst, hf]
    unfold proxied_get get_state get_instance
    rw [hfa, hf]
    simp [hwo]
  | none =>
    have hfa : dictGet iwa.states (pyId inst) = none := by rw [hst, hf]
    unfold proxied_get get_state get_instance
    rw [hfa, hf]
    simp [hwo]

/-- C7: deleting a forwarded member on a proxy instance stores the
`_deleted` tombstone in that instance's override dict (the entry stays
present), and a subsequent read of the name on that instance fails with the
attribute-not-found error naming the owning type and the attribute —
whatever the wrapped class (`base`) still declares under that name. -/
theorem spec_c7 (env : Env) (base : ClassId) (nm : String)
    (iw : InstanceWrapper) (p : PyVal) (owner : PyOwner) :
    (dictGet ((get_state (proxied_delete iw (pyId (some p)) nm)
        (pyId (some p))).1) nm = some PyVal.deletedClass) ∧
    ((proxied_get env base nm (proxied_delete iw (pyId (some p)) nm)
        (some p) owner).1 =
      Except.error (PyError.attributeError (ownerName env owner) nm)) := by
  have hst : dictGet (proxied_delete iw (pyId (some p)) nm).states
      (pyId (some p)) =
      some (dictInsert (get_state iw (pyId (some p))).1 nm PyVal.deletedClass) := by
    rw [proxied_delete_eq_set]
    exact proxied_set_states_self _ _ _ _
  constructor
  · unfold get_state
    rw [hst]
    exact dictGet_insert_self _ _ _
  · unfold proxied_get get_state
    rw [hst]
    simp [dictGet_insert_self]

/-- C8 (counterexample): writing a function value (a descriptor) through the
forwarding accessor and reading it back does not return the stored override:
`__get__` finds the stored function in the override dict, sees that it
defines `__get__`, and re-binds it against the proxy instance, producing a
bound method instead of the stored function. -/
theorem spec_c8_counterexample :
    ((proxied_get envTest baseCls "x"
        (proxied_set emptyIW (pyId (some (PyVal.obj 7 100))) "x"
          (PyVal.func baseCls "f"))
        (some (PyVal.obj 7 100)) (PyOwner.synth "T")).1 =
      Except.ok (PyVal.boundMethod baseCls "f" (PyVal.obj 7 100))) ∧
    ((proxied_get envTest baseCls "x"
        (proxied_set emptyIW (pyId (some (PyVal.obj 7 100))) "x"
          (PyVal.func baseCls "f"))
        (some (PyVal.obj 7 100)) (PyOwner.synth "T")).1 ≠
      Except.ok (PyVal.func baseCls "f")) := by
  refine ⟨rfl, fun h => ?_⟩
  have h2 : PyVal.boundMethod baseCls "f" (PyVal.obj 7 100) =
      PyVal.func baseCls "f" := Except.ok.inj h
  exact PyVal.noConfusion h2

/-- C8 (amended): writing a non-descriptor value (no `__get__`) other than
the tombstone through the forwarding accessor stores it only in the writing
instance's override dictionary: the wrapped-objects table is untouched, a
subsequent read on that instance returns exactly the stored value, and the
override dict and the reads of any instance with a different id are
unchanged.  (A stored descriptor is instead re-bound against the proxy
instance on read, and storing the tombstone reads back as deleted.) -/
theorem spec_c8 (env : Env) (base base2 : ClassId) (nm nm2 : String)
    (iw : InstanceWrapper) (p q : PyVal) (owner owner2 : PyOwner) (v : PyVal)
    (hdel : v ≠ PyVal.deletedClass) (hget : hasGet v = false)
    (hq : pyId (some q) ≠ pyId (some p)) :
    ((proxied_set iw (pyId (some p)) nm v).wrapped_objects =
      iw.wrapped_objects) ∧
    ((proxied_get env base nm (proxied_set iw (pyId (some p)) nm v)
        (some p) owner).1 = Except.ok v) ∧
    (dictGet (proxied_set iw (pyId (some p)) nm v).states (pyId (some q)) =
      dictGet iw.states (pyId (some q))) ∧
    ((proxied_get env base2 nm2 (proxied_set iw (pyId (some p)) nm v)
        (some q) owner2).1 =
      (proxied_get env base2 nm2 iw (some q) owner2).1) := by
  refine ⟨proxied_set_wrapped _ _ _ _, ?_, proxied_set_states_other _ _ _ _ _ hq, ?_⟩
  · unfold proxied_get get_state
    rw [proxied_set_states_self iw (pyId (some p)) nm v]
    simp [dictGet_insert_self, hdel, hget]
  · exact proxied_get_fst_congr env base2 nm2 _ iw (some q) owner2
      (proxied_set_states_other _ _ _ _ _ hq) (proxied_set_wrapped _ _ _ _)

/-- C8 (witness): storing the plain value `42` under `a` on one instance,
with a second instance of a different id unaffected. -/
theorem spec_c8_witness :
    ((proxied_set emptyIW (pyId (some (PyVal.obj 7 100))) "a"
        (PyVal.vint 42)).wrapped_objects = emptyIW.wrapped_objects) ∧
    ((proxied_get envTest baseCls "a"
        (proxied_set emptyIW (pyId (some (PyVal.obj 7 100))) "a"
          (PyVal.vint 42))
        (some (PyVal.obj 7 100)) (PyOwner.synth "T")).1 =
      Except.ok (PyVal.vint 42)) ∧
    (dictGet (proxied_set emptyIW (pyId (some (PyVal.obj 7 100))) "a"
        (PyVal.vint 42)).states (pyId (some (PyVal.obj 8 100))) =
      dictGet emptyIW.states (pyId (some (PyVal.obj 8 100)))) ∧
    ((proxied_get envTest baseCls "a"
        (proxied_set emptyIW (pyId (some (PyVal.obj 7 100))) "a"
          (PyVal.vint 42))
        (some (PyVal.obj 8 100)) (PyOwner.synth "T")).1 =
      (proxied_get envTest baseCls "a" emptyIW
        (some (PyVal.obj 8 100)) (PyOwner.synth "T")).1) :=
  spec_c8 envTest baseCls baseCls "a" "a" emptyIW (PyVal.obj 7 100)
    (PyVal.obj 8 100) (PyOwner.synth "T") (PyOwner.synth "T") (PyVal.vint 42)
    (by decide) (by decide) (by decide)

/-- C9: constructing a proxy from a wrapped value `x` of the declared
wrapped class and reading it back through the generated `__instance__`
property (or the module-level `instance` helper, which reads the same
property) returns exactly `x`, provided the proxy-side initializer does not
tamper with the private wrapped-objects table; and the property was created
with a getter only, so assigning through it fails and changes nothing. -/
theorem spec_c9 (env : Env) (wrapped : ClassId) (synthName : String)
    (proxy_init : InstanceWrapper → PyVal → InstanceWrapper)
    (iw : InstanceWrapper) (self x : PyVal)
    (hinst : isinstance env x wrapped = true)
    (hpres : ∀ (jw : InstanceWrapper) (s : PyVal),
      (proxy_init jw s).wrapped_objects = jw.wrapped_objects) :
    (instance_property_get
        (synth_init env wrapped synthName proxy_init iw self x).2 self =
      some x) ∧
    (instance_fn
        (synth_init env wrapped synthName proxy_init iw self x).2 self =
      some x) ∧
    ((property_set the_instance_property iw (pyId (some self)) x).1 =
      some PyError.cantSetAttribute) ∧
    ((property_set the_instance_property iw (pyId (some self)) x).2 = iw) := by
  have hg : instance_property_get
      (synth_init env wrapped synthName proxy_init iw self x).2 self =
      some x := by
    unfold synth_init
    rw [hinst]
    unfold instance_property_get get_instance
    simp [hpres, set_instance, dictGet_insert_self]
  exact ⟨hg, hg, rfl, rfl⟩

/-- C9 (witness): wrapping a concrete `Base` instance and reading it back. -/
theorem spec_c9_witness :
    (instance_property_get
        (synth_init envTest baseCls "BaseProxy[Base]" (fun jw _ => jw) emptyIW
          (PyVal.obj 7 100) (PyVal.obj 50 baseCls)).2 (PyVal.obj 7 100) =
      some (PyVal.obj 50 baseCls)) ∧
    (instance_fn
        (synth_init envTest baseCls "BaseProxy[Base]" (fun jw _ => jw) emptyIW
          (PyVal.obj 7 100) (PyVal.obj 50 baseCls)).2 (PyVal.obj 7 100) =
      some (PyVal.obj 50 baseCls)) ∧
    ((property_set the_instance_property emptyIW
        (pyId (some (PyVal.obj 7 100))) (PyVal.obj 50 baseCls)).1 =
      some PyError.cantSetAttribute) ∧
    ((property_set the_instance_property emptyIW
        (pyId (some (PyVal.obj 7 100))) (PyVal.obj 50 baseCls)).2 = emptyIW) :=
  spec_c9 envTest baseCls "BaseProxy[Base]" (fun jw _ => jw) emptyIW
    (PyVal.obj 7 100) (PyVal.obj 50 baseCls) (by decide) (fun _ _ => rfl)

end ClassProxy
